import Mathlib

/-!
Shallow embedding of the Match Validation & Reward Engine of the
battlegrounds repository, together with proofs of the documented
properties.

Sources embedded:
- supabase/functions/_shared/reward-calculator.ts  (calculateReward)
- supabase/functions/_shared/mcp-security-db.ts    (security gate)
- supabase/functions/_shared/match-validator.ts    (integrity validator)
- supabase/functions/mcp-match-submit/index.ts     (request handler)

Modelling conventions: JavaScript numbers are embedded as rationals
(all constants and all arithmetic appearing here are exact in both
systems); machine state behind the persistent store is passed
explicitly (lists of rows, an Option result models a query that may
fail, with none standing for a database error); functions that insert
rows return the updated store alongside their result.
-/

namespace Battlegrounds

-- ═════════════════════════════════════════════
-- REWARD CALCULATOR  (reward-calculator.ts)
-- ═════════════════════════════════════════════

/-- MatchData from reward-calculator.ts lines 9-16. -/
structure MatchData where
  placement : ℚ
  playerCount : ℚ
  kills : ℚ
  durationMs : ℚ
  antiCheatPassed : Bool
  botConfidence : ℚ
deriving DecidableEq

/-- RewardBreakdown from reward-calculator.ts lines 28-35. -/
structure RewardBreakdown where
  base : ℚ
  placement : ℚ
  kills : ℚ
  survival : ℚ
  penalties : ℚ
  final : ℚ
deriving DecidableEq

/-- RewardCalculation from reward-calculator.ts lines 18-26. -/
structure RewardCalculation where
  baseReward : ℚ
  placementMultiplier : ℚ
  killBonus : ℚ
  survivalBonus : ℚ
  antiCheatModifier : ℚ
  totalReward : ℚ
  breakdown : RewardBreakdown
deriving DecidableEq

/-- REWARD_CONFIG.BASE_REWARD lookup (lines 42-46) with the
default of 10 applied by line 80 for player counts not in the table. -/
def BASE_REWARD (playerCount : ℚ) : ℚ :=
  if playerCount = 2 then 10
  else if playerCount = 3 then 15
  else if playerCount = 5 then 25
  else 10

/-- REWARD_CONFIG.PLACEMENT_MULTIPLIERS lookup (lines 49-55) with the
default of 0.1 applied by line 83 for placements not in the table. -/
def PLACEMENT_MULTIPLIERS (placement : ℚ) : ℚ :=
  if placement = 1 then 2
  else if placement = 2 then 1
  else if placement = 3 then 1/2
  else if placement = 4 then 1/4
  else if placement = 5 then 1/10
  else 1/10

def KILL_BONUS : ℚ := 5
def SURVIVAL_BONUS_PER_MINUTE : ℚ := 2
def MAX_SURVIVAL_BONUS : ℚ := 20
def SUSPICIOUS_PENALTY : ℚ := 1/2
def FAILED_ANTICHEAT_PENALTY : ℚ := 0
def MAX_REWARD_PER_MATCH : ℚ := 1000
def MIN_REWARD : ℚ := 0

/-- calculateReward from reward-calculator.ts lines 78-135. -/
def calculateReward (m : MatchData) : RewardCalculation :=
  let baseReward := BASE_REWARD m.playerCount
  let placementMultiplier := PLACEMENT_MULTIPLIERS m.placement
  let killBonus := m.kills * KILL_BONUS
  let survivalMinutes := m.durationMs / 60000
  let survivalBonus := min (survivalMinutes * SURVIVAL_BONUS_PER_MINUTE) MAX_SURVIVAL_BONUS
  let antiCheatModifier :=
    if !m.antiCheatPassed then FAILED_ANTICHEAT_PENALTY
    else if m.botConfidence ≥ 7/10 then SUSPICIOUS_PENALTY
    else 1
  let baseWithPlacement := baseReward * placementMultiplier
  let withBonuses := baseWithPlacement + killBonus + survivalBonus
  let withModifier := withBonuses * antiCheatModifier
  let totalReward := min (max withModifier MIN_REWARD) MAX_REWARD_PER_MATCH
  let penalties := withBonuses - withBonuses * antiCheatModifier
  { baseReward := baseReward
    placementMultiplier := placementMultiplier
    killBonus := killBonus
    survivalBonus := survivalBonus
    antiCheatModifier := antiCheatModifier
    totalReward := totalReward
    breakdown :=
      { base := baseReward
        placement := baseWithPlacement - baseReward
        kills := killBonus
        survival := survivalBonus
        penalties := -penalties
        final := totalReward } }

-- ═════════════════════════════════════════════
-- SECURITY GATE  (mcp-security-db.ts)
-- ═════════════════════════════════════════════

/-- SecurityConfig from mcp-security-db.ts lines 11-20.
The nonceExpiryMs and rateLimitWindowMs fields only shape which rows the
store queries return; the query results themselves are passed in
explicitly below, so those two fields are not needed here. -/
structure SecurityConfig where
  rateLimitMaxRequests : ℕ
  dailyRewardCap : ℚ
  dailyMatchCap : ℚ
  maxRewardPerMatch : ℚ
  suspiciousThreshold : ℚ
  banThreshold : ℚ

/-- DEFAULT_SECURITY_CONFIG from mcp-security-db.ts lines 57-66. -/
def DEFAULT_SECURITY_CONFIG : SecurityConfig :=
  { rateLimitMaxRequests := 30
    dailyRewardCap := 5000
    dailyMatchCap := 50
    maxRewardPerMatch := 1000
    suspiciousThreshold := 7/10
    banThreshold := 9/10 }

/-- NonceCheckResult from mcp-security-db.ts lines 49-52. -/
structure NonceCheckResult where
  valid : Bool
  reason : String
deriving DecidableEq

/-- checkAndConsumeNonce from mcp-security-db.ts lines 88-140.
The mcp_nonces table is modelled as the list of nonce values already
consumed; dbErr models the initial select failing with a code other
than PGRST116 (line 105).  The function returns the result together
with the table contents after its insert (the side effect of line 115).
The insert succeeds exactly when the unique constraint on the value is
not violated; its 23505 branch (line 125) is the value already being
present.  The expiry cleanup of line 133 is storage hygiene only and
is not modelled. -/
def checkAndConsumeNonce (dbErr : Bool) (store : List String)
    (nonce : String) (_walletAddress : String) :
    NonceCheckResult × List String :=
  if dbErr then
    (⟨false, "Database error during nonce check"⟩, store)
  else if nonce ∈ store then
    (⟨false, "Nonce already used (replay attack detected)"⟩, store)
  else
    (⟨true, "Nonce is fresh"⟩, store ++ [nonce])

/-- RateLimitResult from mcp-security-db.ts lines 35-40 (the resetAt
timestamp is not modelled; no property mentions it). -/
structure RateLimitResult where
  allowed : Bool
  remaining : ℕ
  details : String
deriving DecidableEq

/-- checkRateLimit from mcp-security-db.ts lines 145-202.  countRes is
the windowed row count returned by the store, with none standing for a
query error (line 163): that branch fails open.  The insert recording
the request (line 188) does not feed back into any checked property
and is not modelled. -/
def checkRateLimit (countRes : Option ℕ) (maxRequests : ℕ) : RateLimitResult :=
  match countRes with
  | none =>
    ⟨true, maxRequests, "Rate limit check failed, allowing request"⟩
  | some requestCount =>
    let remaining := maxRequests - requestCount - 1
    if requestCount ≥ maxRequests then
      ⟨false, 0, "Rate limit exceeded: " ++ toString requestCount ++ "/" ++ toString maxRequests⟩
    else
      ⟨true, remaining, "Rate limit OK: " ++ toString (requestCount + 1) ++ "/" ++ toString maxRequests⟩

/-- DailyCapResult from mcp-security-db.ts lines 42-47 (resetAt not
modelled). -/
structure DailyCapResult where
  allowed : Bool
  usedToday : ℚ
  remaining : ℚ
deriving DecidableEq

/-- checkDailyCap from mcp-security-db.ts lines 207-258.  rows is the
list of amount values of matching mcp_daily_usage rows for the wallet,
type and day bucket, with none standing for a query error (line 230):
that branch fails closed. -/
def checkDailyCap (rows : Option (List ℚ)) (maxCap : ℚ) (amount : ℚ) : DailyCapResult :=
  match rows with
  | none => ⟨false, 0, 0⟩
  | some data =>
    let usedToday := data.sum
    let remaining := max 0 (maxCap - usedToday)
    if usedToday + amount > maxCap then
      ⟨false, usedToday, remaining⟩
    else
      ⟨true, usedToday, remaining - amount⟩

/-- a result shape for checkMatchUniqueness (inlined object type in the
source). -/
structure MatchUniqueResult where
  unique : Bool
  reason : String
deriving DecidableEq

/-- checkMatchUniqueness from mcp-security-db.ts lines 282-303.  lookup
is the outcome of the select on mcp_processed_matches: none stands for
a query error other than PGRST116 (line 293, fails closed), some true
for a row found, some false for no row. -/
def checkMatchUniqueness (lookup : Option Bool) : MatchUniqueResult :=
  match lookup with
  | none => ⟨false, "Database error during match check"⟩
  | some true => ⟨false, "Match already processed (replay attack)"⟩
  | some false => ⟨true, "Match ID is unique"⟩

/-- result shape of validateWalletAddress (inlined object type). -/
structure WalletCheckResult where
  valid : Bool
  reason : String
deriving DecidableEq

/-- transcription of the character class of the regex on
mcp-security-db.ts line 334. -/
def isHexChar (c : Char) : Bool :=
  ('0' ≤ c && c ≤ '9') || ('a' ≤ c && c ≤ 'f') || ('A' ≤ c && c ≤ 'F')

/-- transcription of the anchored regex 0x followed by exactly 40 hex
characters (mcp-security-db.ts line 334). -/
def walletRegexOk (s : String) : Bool :=
  match s.toList with
  | '0' :: 'x' :: rest => rest.length == 40 && rest.all isHexChar
  | _ => false

/-- validateWalletAddress from mcp-security-db.ts lines 329-339.  The
typeof-string guard is vacuous in a typed embedding; the falsiness
guard on line 330 is the empty-string case. -/
def validateWalletAddress (address : String) : WalletCheckResult :=
  if address = "" then ⟨false, "Missing wallet address"⟩
  else if walletRegexOk address then ⟨true, "Valid Ethereum address"⟩
  else ⟨false, "Invalid Ethereum address format"⟩

/-- SecurityCheck from mcp-security-db.ts lines 29-33. -/
structure SecurityCheck where
  name : String
  passed : Bool
  details : String
deriving DecidableEq

/-- SecurityCheckResult from mcp-security-db.ts lines 22-27. -/
structure SecurityCheckResult where
  passed : Bool
  checks : List SecurityCheck
  riskScore : ℕ
  blockReason : Option String
deriving DecidableEq

/-- parameters of performFullSecurityCheck (mcp-security-db.ts lines
347-354). -/
structure SecParams where
  walletAddress : String
  matchId : String
  nonce : String
  endpoint : String
  rewardAmount : Option ℚ
  botConfidence : Option ℚ

/-- the store-query outcomes consumed by one performFullSecurityCheck
run, one field per table access made by its sub-checks. -/
structure SecDb where
  nonceDbErr : Bool
  nonceStore : List String
  rateCount : Option ℕ
  matchLookup : Option Bool
  matchCapRows : Option (List ℚ)
  rewardCapRows : Option (List ℚ)

/-- the mutable triple threaded through the body of
performFullSecurityCheck: the checks array, the running riskScore and
the first-failure blockReason (lines 357-359). -/
structure CheckSt where
  checks : List SecurityCheck
  riskScore : ℕ
  blockReason : Option String

/-- one push-and-accumulate block of performFullSecurityCheck: push a
SecurityCheck, add the given risk bump, and keep the earlier
blockReason if one is already set (the pattern blockReason =
blockReason or message used on lines 363-371 and the analogous later
blocks). -/
structure SecurityBlock where
  name : String
  ok : Bool
  details : String
  bump : ℕ
  msg : Option String

/-- the JavaScript pattern a = a or b on an optional value. -/
def orFirst : Option String → Option String → Option String
  | some r, _ => some r
  | none, m => m

def pushCheck (st : CheckSt) (b : SecurityBlock) : CheckSt :=
  { checks := st.checks ++ [⟨b.name, b.ok, b.details⟩]
    riskScore := st.riskScore + b.bump
    blockReason := orFirst st.blockReason b.msg }

def runChecks : CheckSt → List SecurityBlock → CheckSt
  | st, [] => st
  | st, b :: rest => runChecks (pushCheck st b) rest

/-- the sequence of sub-check blocks executed by
performFullSecurityCheck (mcp-security-db.ts lines 361-499), in source
order: wallet validation, nonce, rate limit, match uniqueness, daily
match cap, then (only when a rewardAmount is given) daily reward cap
and per-match cap, then (only when a botConfidence is given) bot
detection.  Each block carries the pushed SecurityCheck fields, the
riskScore bump applied when the block's condition fires, and the
candidate blockReason message. -/
def securityBlocks (db : SecDb) (p : SecParams) (cfg : SecurityConfig) :
    List SecurityBlock :=
  let walletCheck := validateWalletAddress p.walletAddress
  let nonceCheck := (checkAndConsumeNonce db.nonceDbErr db.nonceStore p.nonce p.walletAddress).1
  let rateCheck := checkRateLimit db.rateCount cfg.rateLimitMaxRequests
  let matchCheck := checkMatchUniqueness db.matchLookup
  let matchCapCheck := checkDailyCap db.matchCapRows cfg.dailyMatchCap 1
  [ ⟨"WALLET_VALIDATION", walletCheck.valid, walletCheck.reason,
      if !walletCheck.valid then 100 else 0,
      if !walletCheck.valid then some walletCheck.reason else none⟩,
    ⟨"REPLAY_PREVENTION", nonceCheck.valid, nonceCheck.reason,
      if !nonceCheck.valid then 50 else 0,
      if !nonceCheck.valid then some nonceCheck.reason else none⟩,
    ⟨"RATE_LIMIT", rateCheck.allowed, rateCheck.details,
      if !rateCheck.allowed then 40 else 0,
      if !rateCheck.allowed then some rateCheck.details else none⟩,
    ⟨"MATCH_UNIQUENESS", matchCheck.unique, matchCheck.reason,
      if !matchCheck.unique then 60 else 0,
      if !matchCheck.unique then some matchCheck.reason else none⟩,
    ⟨"DAILY_MATCH_CAP", matchCapCheck.allowed,
      (if matchCapCheck.allowed then
        "Matches today: " ++ toString matchCapCheck.usedToday ++ "/" ++ toString cfg.dailyMatchCap
      else
        "Daily match limit reached: " ++ toString matchCapCheck.usedToday ++ "/" ++ toString cfg.dailyMatchCap),
      if !matchCapCheck.allowed then 30 else 0,
      if !matchCapCheck.allowed then some "Daily match limit exceeded" else none⟩ ]
  ++ (match p.rewardAmount with
      | none => []
      | some amt =>
        let rewardCapCheck := checkDailyCap db.rewardCapRows cfg.dailyRewardCap amt
        [ ⟨"DAILY_REWARD_CAP", rewardCapCheck.allowed,
            (if rewardCapCheck.allowed then
              "Rewards today: " ++ toString rewardCapCheck.usedToday ++ "/" ++ toString cfg.dailyRewardCap
            else
              "Daily reward limit reached: " ++ toString rewardCapCheck.usedToday ++ "/" ++ toString cfg.dailyRewardCap),
            if !rewardCapCheck.allowed then 30 else 0,
            if !rewardCapCheck.allowed then some "Daily reward limit exceeded" else none⟩,
          ⟨"PER_MATCH_CAP", !decide (amt > cfg.maxRewardPerMatch),
            (if amt > cfg.maxRewardPerMatch then
              "Reward " ++ toString amt ++ " exceeds max " ++ toString cfg.maxRewardPerMatch
            else
              "Reward " ++ toString amt ++ " within limit"),
            if amt > cfg.maxRewardPerMatch then 40 else 0,
            if amt > cfg.maxRewardPerMatch then some "Per-match reward cap exceeded" else none⟩ ])
  ++ (match p.botConfidence with
      | none => []
      | some bc =>
        let isBanned := decide (bc ≥ cfg.banThreshold)
        let isSuspicious := decide (bc ≥ cfg.suspiciousThreshold)
        [ ⟨"BOT_DETECTION", !isBanned,
            (if isBanned then
              "Bot confidence " ++ toString (bc * 100) ++ " percent exceeds ban threshold"
            else if isSuspicious then
              "Bot confidence " ++ toString (bc * 100) ++ " percent flagged for review"
            else
              "Bot confidence " ++ toString (bc * 100) ++ " percent OK"),
            if isBanned then 50 else if isSuspicious then 20 else 0,
            if isBanned then some "Bot detection threshold exceeded" else none⟩ ])

/-- performFullSecurityCheck from mcp-security-db.ts lines 344-509:
run the blocks in order, then passed is the conjunction of the pushed
checks, riskScore is clamped at 100, and blockReason is cleared when
everything passed (lines 501-508). -/
def performFullSecurityCheck (db : SecDb) (p : SecParams) (cfg : SecurityConfig) :
    SecurityCheckResult :=
  let st := runChecks ⟨[], 0, none⟩ (securityBlocks db p cfg)
  let allPassed := st.checks.all (fun c => c.passed)
  { passed := allPassed
    checks := st.checks
    riskScore := min 100 st.riskScore
    blockReason := if allPassed then none else st.blockReason }

-- ─────────────────────────────────────────────
-- Recording side of the store (usage and processed matches)
-- ─────────────────────────────────────────────

/-- the usage_type column of mcp_daily_usage (matchType rendering the
JavaScript string match, which is a reserved word here). -/
inductive UsageType
  | reward
  | matchType
deriving DecidableEq

/-- one mcp_daily_usage row (mcp-security-db.ts lines 268-276); the day
field is the UTC day bucket the created_at timestamp falls in. -/
structure UsageRow where
  wallet : String
  utype : UsageType
  amount : ℚ
  matchId : String
  day : ℕ
deriving DecidableEq

/-- one mcp_processed_matches row (mcp-security-db.ts lines 314-323). -/
structure ProcessedRow where
  matchId : String
  wallet : String
  placement : ℚ
  rewardAmount : ℚ
deriving DecidableEq

/-- the two persistent tables written on the acceptance path. -/
structure Store where
  usage : List UsageRow
  processed : List ProcessedRow
deriving DecidableEq

/-- recordDailyUsage from mcp-security-db.ts lines 260-277: append one
usage row. -/
def recordDailyUsage (st : Store) (wallet : String) (utype : UsageType)
    (amount : ℚ) (matchId : String) (day : ℕ) : Store :=
  { st with usage := st.usage ++ [⟨wallet, utype, amount, matchId, day⟩] }

/-- recordProcessedMatch from mcp-security-db.ts lines 305-324: append
one processed-match row. -/
def recordProcessedMatch (st : Store) (matchId : String) (wallet : String)
    (placement : ℚ) (rewardAmount : ℚ) : Store :=
  { st with processed := st.processed ++ [⟨matchId, wallet, placement, rewardAmount⟩] }

-- ═════════════════════════════════════════════
-- MATCH INTEGRITY VALIDATOR  (match-validator.ts)
-- ═════════════════════════════════════════════

/-- the antiCheat bundle of MatchInput (match-validator.ts lines 18-23). -/
structure AntiCheatBundle where
  inputTimingVariance : ℚ
  frameCount : ℚ
  avgTickRate : ℚ
  suspiciousFlags : List String
deriving DecidableEq

/-- MatchInput from match-validator.ts lines 11-24.  playerCount is
typed 2 or 3 or 5 in the source; it is kept numeric here because
validateDuration itself handles unknown player counts through a table
miss. -/
structure MatchInput where
  walletAddress : String
  matchId : String
  placement : ℚ
  playerCount : ℚ
  durationMs : ℚ
  kills : ℚ
  antiCheat : AntiCheatBundle
deriving DecidableEq

/-- ReasonCode from match-validator.ts lines 40-54. -/
inductive ReasonCode
  | VALID
  | DURATION_TOO_SHORT
  | DURATION_TOO_LONG
  | DURATION_IMPOSSIBLE
  | ZERO_INPUT_VARIANCE
  | LOW_INPUT_VARIANCE
  | SUSPICIOUS_WIN_STREAK
  | EXCESSIVE_WIN_RATE
  | RAPID_MATCHES
  | FRAME_COUNT_MISMATCH
  | TICK_RATE_ANOMALY
  | KILL_COUNT_IMPOSSIBLE
  | PLACEMENT_INVALID
  | BOT_DETECTED
deriving DecidableEq

/-- flag severities from match-validator.ts line 36. -/
inductive Severity
  | info
  | warning
  | critical
deriving DecidableEq

/-- ValidationFlag from match-validator.ts lines 34-38. -/
structure ValidationFlag where
  code : String
  severity : Severity
  message : String
deriving DecidableEq

/-- ValidationResult from match-validator.ts lines 26-32. -/
structure ValidationResult where
  allowed : Bool
  reasonCode : ReasonCode
  reasonMessage : String
  riskScore : ℕ
  flags : List ValidationFlag
deriving DecidableEq

/-- per-player-count duration limits (VALIDATION_CONFIG.DURATION entry
shape, match-validator.ts lines 61-65). -/
structure DurationCfg where
  minMs : ℚ
  maxMs : ℚ
  typicalMin : ℚ
  typicalMax : ℚ

/-- VALIDATION_CONFIG.DURATION lookup (match-validator.ts lines 61-65);
none models a table miss for an unknown player count. -/
def DURATION_CONFIG (playerCount : ℚ) : Option DurationCfg :=
  if playerCount = 2 then some ⟨10000, 180000, 20000, 120000⟩
  else if playerCount = 3 then some ⟨15000, 240000, 30000, 150000⟩
  else if playerCount = 5 then some ⟨20000, 300000, 45000, 200000⟩
  else none

def MIN_TIME_PER_KILL : ℚ := 3000
def ZERO_THRESHOLD : ℚ := 5
def LOW_THRESHOLD : ℚ := 30
def NORMAL_MAX : ℚ := 500
def MAX_CONSECUTIVE_WINS : ℕ := 10
def MAX_WIN_RATE_24H : ℚ := 85/100
def MIN_MATCHES_FOR_RATE : ℕ := 5
def RAPID_MATCH_WINDOW_MS : ℚ := 60000
def MAX_RAPID_MATCHES : ℕ := 3
def EXPECTED_TICK_RATE : ℚ := 60
def TICK_RATE_TOLERANCE : ℚ := 3/10

/-- RISK_THRESHOLDS from match-validator.ts lines 92-96, with the
source comments transcribed: ALLOW is annotated below 50 = allow, FLAG
is annotated 50-75 = allow but flag, and REJECT carries the value 100
while being annotated above 75 = reject. -/
def RISK_ALLOW : ℕ := 50
def RISK_FLAG : ℕ := 75
def RISK_REJECT : ℕ := 100

/-- the intermediate result shape of each sub-check (CheckResult,
match-validator.ts lines 207-213). -/
structure CheckResult where
  flags : List ValidationFlag
  riskScore : ℕ
  reject : Bool
  reasonCode : Option ReasonCode
  message : String

/-- validateDuration from match-validator.ts lines 215-297. -/
def validateDuration (input : MatchInput) : CheckResult :=
  match DURATION_CONFIG input.playerCount with
  | none =>
    { flags := [⟨"INVALID_PLAYER_COUNT", .critical,
        "Invalid player count: " ++ toString input.playerCount⟩]
      riskScore := 100, reject := true, reasonCode := some .PLACEMENT_INVALID
      message := "Invalid player count" }
  | some config =>
    if input.durationMs < config.minMs then
      { flags := [⟨"DURATION_TOO_SHORT", .critical,
          "Duration " ++ toString input.durationMs ++ "ms below minimum " ++
            toString config.minMs ++ "ms for " ++ toString input.playerCount ++ " players"⟩]
        riskScore := 100, reject := true, reasonCode := some .DURATION_TOO_SHORT
        message := "Match duration impossibly short (" ++ toString (round (input.durationMs / 1000)) ++ "s)" }
    else if input.durationMs > config.maxMs then
      { flags := [⟨"DURATION_TOO_LONG", .critical,
          "Duration " ++ toString input.durationMs ++ "ms exceeds maximum " ++
            toString config.maxMs ++ "ms"⟩]
        riskScore := 100, reject := true, reasonCode := some .DURATION_TOO_LONG
        message := "Match duration exceeds maximum (" ++ toString (round (input.durationMs / 1000)) ++ "s)" }
    else if input.placement = 1 ∧ input.kills > 0 ∧
        input.durationMs < input.kills * MIN_TIME_PER_KILL then
      { flags := [⟨"DURATION_IMPOSSIBLE", .critical,
          toString input.kills ++ " kills in " ++ toString input.durationMs ++
            "ms is impossible (min " ++ toString (input.kills * MIN_TIME_PER_KILL) ++ "ms)"⟩]
        riskScore := 100, reject := true, reasonCode := some .DURATION_IMPOSSIBLE
        message := "Kill speed impossibly fast" }
    else
      let shortFlags : List ValidationFlag :=
        if input.durationMs < config.typicalMin then
          [⟨"DURATION_UNUSUALLY_SHORT", .warning,
            "Duration " ++ toString input.durationMs ++ "ms is unusually short"⟩]
        else []
      let shortRisk : ℕ := if input.durationMs < config.typicalMin then 15 else 0
      let longFlags : List ValidationFlag :=
        if input.durationMs > config.typicalMax then
          [⟨"DURATION_UNUSUALLY_LONG", .info,
            "Duration " ++ toString input.durationMs ++ "ms is longer than typical"⟩]
        else []
      let longRisk : ℕ := if input.durationMs > config.typicalMax then 5 else 0
      { flags := shortFlags ++ longFlags, riskScore := shortRisk + longRisk
        reject := false, reasonCode := none, message := "Duration valid" }

/-- validateInputVariance from match-validator.ts lines 302-354. -/
def validateInputVariance (input : MatchInput) : CheckResult :=
  let variance := input.antiCheat.inputTimingVariance
  if variance ≤ ZERO_THRESHOLD then
    { flags := [⟨"ZERO_INPUT_VARIANCE", .critical,
        "Input timing variance " ++ toString variance ++ "ms indicates automation"⟩]
      riskScore := 100, reject := true, reasonCode := some .ZERO_INPUT_VARIANCE
      message := "Automated input detected (zero timing variance)" }
  else
    let lowFlags : List ValidationFlag :=
      if variance ≤ LOW_THRESHOLD then
        [⟨"LOW_INPUT_VARIANCE", .warning,
          "Input timing variance " ++ toString variance ++ "ms is suspiciously consistent"⟩] ++
        (if input.placement = 1 then
          [⟨"LOW_VARIANCE_WINNER", .warning,
            "Low variance combined with 1st place finish"⟩]
        else [])
      else []
    let lowRisk : ℕ :=
      if variance ≤ LOW_THRESHOLD then
        35 + (if input.placement = 1 then 15 else 0)
      else 0
    let highFlags : List ValidationFlag :=
      if variance > NORMAL_MAX then
        [⟨"HIGH_INPUT_VARIANCE", .info,
          "Input timing variance " ++ toString variance ++ "ms is unusually high"⟩]
      else []
    let highRisk : ℕ := if variance > NORMAL_MAX then 10 else 0
    { flags := lowFlags ++ highFlags, riskScore := lowRisk + highRisk
      reject := false, reasonCode := none, message := "Input variance acceptable" }

/-- validateKillCount from match-validator.ts lines 359-410. -/
def validateKillCount (input : MatchInput) : CheckResult :=
  if input.kills ≥ input.playerCount then
    { flags := [⟨"KILL_COUNT_IMPOSSIBLE", .critical,
        toString input.kills ++ " kills impossible with " ++
          toString input.playerCount ++ " players"⟩]
      riskScore := 100, reject := true, reasonCode := some .KILL_COUNT_IMPOSSIBLE
      message := "Kill count exceeds possible opponents" }
  else
    let lastFlags : List ValidationFlag :=
      if input.kills > 0 ∧ input.placement = input.playerCount then
        [⟨"KILLS_AS_LAST_PLACE", .warning,
          toString input.kills ++ " kills but finished last place"⟩]
      else []
    let lastRisk : ℕ :=
      if input.kills > 0 ∧ input.placement = input.playerCount then 10 else 0
    let typicalMin : ℚ :=
      match DURATION_CONFIG input.playerCount with
      | some c => c.typicalMin
      | none => 30000
    let perfectFlags : List ValidationFlag :=
      if input.placement = 1 ∧ input.kills = input.playerCount - 1 then
        [⟨"PERFECT_GAME", .info, "Perfect game (1st place, all kills)"⟩] ++
        (if input.durationMs < typicalMin then
          [⟨"FAST_PERFECT_GAME", .warning, "Perfect game completed unusually fast"⟩]
        else [])
      else []
    let perfectRisk : ℕ :=
      if input.placement = 1 ∧ input.kills = input.playerCount - 1 then
        10 + (if input.durationMs < typicalMin then 20 else 0)
      else 0
    { flags := lastFlags ++ perfectFlags, riskScore := lastRisk + perfectRisk
      reject := false, reasonCode := none, message := "Kill count valid" }

/-- validateFrameData from match-validator.ts lines 415-458.  The frame
ratio divides by expectedFrames, which is nonzero whenever this
function is reached inside validateMatch, since validateDuration has
already enforced a positive minimum duration. -/
def validateFrameData (input : MatchInput) : CheckResult :=
  let minTick := EXPECTED_TICK_RATE * (1 - TICK_RATE_TOLERANCE)
  let maxTick := EXPECTED_TICK_RATE * (1 + TICK_RATE_TOLERANCE)
  let tickFlags : List ValidationFlag :=
    if input.antiCheat.avgTickRate < minTick ∨ input.antiCheat.avgTickRate > maxTick then
      [⟨"TICK_RATE_ANOMALY", .warning,
        "Tick rate " ++ toString input.antiCheat.avgTickRate ++
          " outside expected range " ++ toString minTick ++ "-" ++ toString maxTick⟩]
    else []
  let tickRisk : ℕ :=
    if input.antiCheat.avgTickRate < minTick ∨ input.antiCheat.avgTickRate > maxTick then 15 else 0
  let expectedFrames := (input.durationMs / 1000) * EXPECTED_TICK_RATE
  let frameQuotient := input.antiCheat.frameCount / expectedFrames
  let frameFlags : List ValidationFlag :=
    if frameQuotient < 1/2 ∨ frameQuotient > 2 then
      [⟨"FRAME_COUNT_MISMATCH", .warning,
        "Frame count " ++ toString input.antiCheat.frameCount ++
          " does not match duration (expected about " ++ toString (round expectedFrames) ++ ")"⟩]
    else []
  let frameRisk : ℕ := if frameQuotient < 1/2 ∨ frameQuotient > 2 then 20 else 0
  let clientFlags : List ValidationFlag :=
    if input.antiCheat.suspiciousFlags.length > 0 then
      [⟨"CLIENT_SUSPICIOUS_FLAGS", .warning,
        "Client reported: " ++ String.intercalate ", " input.antiCheat.suspiciousFlags⟩]
    else []
  let clientRisk : ℕ := input.antiCheat.suspiciousFlags.length * 10
  { flags := tickFlags ++ frameFlags ++ clientFlags
    riskScore := tickRisk + frameRisk + clientRisk
    reject := false, reasonCode := none, message := "Frame data acceptable" }

/-- one row of the win-pattern history query (placement and
processed_at of an mcp_processed_matches row, most recent first,
limited to 50 rows of the last 24 hours by the query on
match-validator.ts lines 475-481). -/
structure HistoryRow where
  placement : ℚ
  processedAt : ℚ
deriving DecidableEq

/-- analyzeWinPatterns from match-validator.ts lines 463-546.  hist is
the query result, none standing for a fetch error (line 483, fails
open). -/
def analyzeWinPatterns (hist : Option (List HistoryRow)) (input : MatchInput) :
    CheckResult :=
  match hist with
  | none =>
    { flags := [], riskScore := 0, reject := false, reasonCode := none
      message := "Could not analyze patterns" }
  | some recentMatches =>
    if recentMatches.length < MIN_MATCHES_FOR_RATE then
      { flags := [], riskScore := 0, reject := false, reasonCode := none
        message := "Insufficient history" }
    else
      let wins := (recentMatches.filter (fun m => decide (m.placement = 1))).length
      let winRate : ℚ := (wins : ℚ) / (recentMatches.length : ℚ)
      let rateFlags : List ValidationFlag :=
        if winRate > MAX_WIN_RATE_24H then
          [⟨"EXCESSIVE_WIN_RATE", .warning,
            "Win rate " ++ toString (winRate * 100) ++ " percent in last 24h (" ++
              toString wins ++ "/" ++ toString recentMatches.length ++ ")"⟩]
        else []
      let rateRisk : ℕ := if winRate > MAX_WIN_RATE_24H then 25 else 0
      if input.placement = 1 then
        let consecutiveWins :=
          (recentMatches.takeWhile (fun m => decide (m.placement = 1))).length + 1
        if consecutiveWins ≥ MAX_CONSECUTIVE_WINS then
          let streakFlags := rateFlags ++
            [⟨"SUSPICIOUS_WIN_STREAK", .warning,
              toString consecutiveWins ++ " consecutive wins"⟩]
          if consecutiveWins ≥ MAX_CONSECUTIVE_WINS * 2 then
            { flags := streakFlags, riskScore := 100, reject := true
              reasonCode := some .SUSPICIOUS_WIN_STREAK
              message := "Impossible win streak (" ++ toString consecutiveWins ++ " in a row)" }
          else
            { flags := streakFlags, riskScore := rateRisk + 30, reject := false
              reasonCode := none, message := "Win patterns acceptable" }
        else
          { flags := rateFlags, riskScore := rateRisk, reject := false
            reasonCode := none, message := "Win patterns acceptable" }
      else
        { flags := rateFlags, riskScore := rateRisk, reject := false
          reasonCode := none, message := "Win patterns acceptable" }

/-- detectRapidMatches from match-validator.ts lines 551-602.  rapid is
the list of processed_at timestamps returned by the second history
query (limit 10), none standing for a fetch error (fails open); now is
the server clock value used on line 579. -/
def detectRapidMatches (rapid : Option (List ℚ)) (now : ℚ) : CheckResult :=
  match rapid with
  | none =>
    { flags := [], riskScore := 0, reject := false, reasonCode := none
      message := "Could not check rapid matches" }
  | some recentMatches =>
    let rapidCount :=
      (recentMatches.filter (fun t => decide (now - t < RAPID_MATCH_WINDOW_MS))).length
    if rapidCount ≥ MAX_RAPID_MATCHES then
      { flags := [⟨"RAPID_MATCHES", .warning,
          toString rapidCount ++ " matches in last " ++
            toString (round (RAPID_MATCH_WINDOW_MS / 1000)) ++ "s"⟩]
        riskScore := 20, reject := false, reasonCode := none
        message := "Match frequency acceptable" }
    else
      { flags := [], riskScore := 0, reject := false, reasonCode := none
        message := "Match frequency acceptable" }

/-- validateMatch from match-validator.ts lines 102-202: the ordered
sub-checks with hard violations returning immediately at riskScore
100, then the final decision against RISK_REJECT and RISK_FLAG.  The
two store reads are passed in as hist and rapid; now is the clock used
by the rapid-match check.  On an early reject the source reads the
sub-check reasonCode with a non-null assertion; getD VALID renders
that (every rejecting sub-check sets its reasonCode). -/
def validateMatch (hist : Option (List HistoryRow)) (rapid : Option (List ℚ))
    (now : ℚ) (input : MatchInput) : ValidationResult :=
  if (validateDuration input).reject then
    { allowed := false
      reasonCode := (validateDuration input).reasonCode.getD .VALID
      reasonMessage := (validateDuration input).message
      riskScore := 100
      flags := (validateDuration input).flags }
  else if (validateInputVariance input).reject then
    { allowed := false
      reasonCode := (validateInputVariance input).reasonCode.getD .VALID
      reasonMessage := (validateInputVariance input).message
      riskScore := 100
      flags := (validateDuration input).flags ++ (validateInputVariance input).flags }
  else if (validateKillCount input).reject then
    { allowed := false
      reasonCode := (validateKillCount input).reasonCode.getD .VALID
      reasonMessage := (validateKillCount input).message
      riskScore := 100
      flags := (validateDuration input).flags ++ (validateInputVariance input).flags ++
        (validateKillCount input).flags }
  else if (analyzeWinPatterns hist input).reject then
    { allowed := false
      reasonCode := (analyzeWinPatterns hist input).reasonCode.getD .VALID
      reasonMessage := (analyzeWinPatterns hist input).message
      riskScore := 100
      flags := (validateDuration input).flags ++ (validateInputVariance input).flags ++
        (validateKillCount input).flags ++ (validateFrameData input).flags ++
        (analyzeWinPatterns hist input).flags }
  else
    let riskScore := min 100
      ((validateDuration input).riskScore + (validateInputVariance input).riskScore +
        (validateKillCount input).riskScore + (validateFrameData input).riskScore +
        (analyzeWinPatterns hist input).riskScore + (detectRapidMatches rapid now).riskScore)
    let allFlags :=
      (validateDuration input).flags ++ (validateInputVariance input).flags ++
        (validateKillCount input).flags ++ (validateFrameData input).flags ++
        (analyzeWinPatterns hist input).flags ++ (detectRapidMatches rapid now).flags
    if riskScore ≥ RISK_REJECT then
      { allowed := false, reasonCode := .BOT_DETECTED
        reasonMessage := "Match rejected due to suspicious activity patterns"
        riskScore := riskScore, flags := allFlags }
    else
      { allowed := true, reasonCode := .VALID
        reasonMessage :=
          if riskScore ≥ RISK_FLAG then "Match allowed but flagged for review"
          else "Match validated successfully"
        riskScore := riskScore, flags := allFlags }

-- ═════════════════════════════════════════════
-- ORCHESTRATOR  (mcp-match-submit/index.ts)
-- ═════════════════════════════════════════════

/-- the security-gate invocation of the match-submit handler
(mcp-match-submit/index.ts lines 246-255): endpoint match-submit,
default config, and neither a rewardAmount nor a botConfidence. -/
def matchSubmitSecurityCheck (db : SecDb) (walletAddress matchId nonce : String) :
    SecurityCheckResult :=
  performFullSecurityCheck db
    { walletAddress := walletAddress, matchId := matchId, nonce := nonce
      endpoint := "match-submit", rewardAmount := none, botConfidence := none }
    DEFAULT_SECURITY_CONFIG

/-- the MatchData the handler passes to calculateReward on the allowed
path (mcp-match-submit/index.ts lines 301-308): antiCheatPassed is
derived as riskScore below 50 and botConfidence as riskScore over
100. -/
def deriveMatchData (placement playerCount kills durationMs : ℚ)
    (riskScore : ℕ) : MatchData :=
  { placement := placement, playerCount := playerCount, kills := kills
    durationMs := durationMs
    antiCheatPassed := decide (riskScore < 50)
    botConfidence := (riskScore : ℚ) / 100 }

/-- the recording the handler performs when validation allows the
match (mcp-match-submit/index.ts lines 330-340): one match-type daily
usage row of amount 1, then the processed-match row. -/
def recordAcceptedSubmission (st : Store) (wallet matchId : String)
    (placement reward : ℚ) (day : ℕ) : Store :=
  recordProcessedMatch
    (recordDailyUsage st wallet UsageType.matchType 1 matchId day)
    matchId wallet placement reward

/-- the row filter of the daily reward-cap aggregate: reward-type rows
of the given wallet in the given UTC day bucket (the query of
checkDailyCap, mcp-security-db.ts lines 221-228, for capType
reward). -/
def isRewardRow (r : UsageRow) (wallet : String) (day : ℕ) : Bool :=
  r.wallet == wallet &&
    (match r.utype with | UsageType.reward => true | UsageType.matchType => false) &&
    r.day == day

/-- the running sum of reward-type daily usage for a wallet on a day,
as summed by checkDailyCap (mcp-security-db.ts line 240). -/
def rewardSumOn (st : Store) (wallet : String) (day : ℕ) : ℚ :=
  ((st.usage.filter (fun r => isRewardRow r wallet day)).map (fun r => r.amount)).sum

-- ═════════════════════════════════════════════
-- SPEC-SIDE DESCRIPTIONS (for refinement statements)
-- ═════════════════════════════════════════════

/-- one sub-check as the spec describes it: whether it failed, the
weight it contributes when it fails, the contribution it makes even
when it passes (nonzero only for the suspicious-but-not-banned bot
case), and the message a failure contributes to blockReason. -/
structure SubCheckOutcome where
  failed : Bool
  weight : ℕ
  extra : ℕ
  blockMsg : String

/-- the sub-checks that run for given parameters, in the fixed order of
section 4.1 of the spec, with the spec's weights: wallet format 100,
nonce 50, rate limit 40, match uniqueness 60, daily match cap 30, then
when a reward amount is evaluated the daily reward cap 30 and per-match
cap 40, then when a bot confidence is provided the bot gate with fatal
weight 50 at the ban threshold and non-fatal contribution 20 at the
suspicious threshold. -/
def securityOutcomes (db : SecDb) (p : SecParams) (cfg : SecurityConfig) :
    List SubCheckOutcome :=
  let walletCheck := validateWalletAddress p.walletAddress
  let nonceCheck := (checkAndConsumeNonce db.nonceDbErr db.nonceStore p.nonce p.walletAddress).1
  let rateCheck := checkRateLimit db.rateCount cfg.rateLimitMaxRequests
  let matchCheck := checkMatchUniqueness db.matchLookup
  let matchCapCheck := checkDailyCap db.matchCapRows cfg.dailyMatchCap 1
  [ ⟨!walletCheck.valid, 100, 0, walletCheck.reason⟩,
    ⟨!nonceCheck.valid, 50, 0, nonceCheck.reason⟩,
    ⟨!rateCheck.allowed, 40, 0, rateCheck.details⟩,
    ⟨!matchCheck.unique, 60, 0, matchCheck.reason⟩,
    ⟨!matchCapCheck.allowed, 30, 0, "Daily match limit exceeded"⟩ ]
  ++ (match p.rewardAmount with
      | none => []
      | some amt =>
        let rewardCapCheck := checkDailyCap db.rewardCapRows cfg.dailyRewardCap amt
        [ ⟨!rewardCapCheck.allowed, 30, 0, "Daily reward limit exceeded"⟩,
          ⟨decide (amt > cfg.maxRewardPerMatch), 40, 0, "Per-match reward cap exceeded"⟩ ])
  ++ (match p.botConfidence with
      | none => []
      | some bc =>
        [ ⟨decide (bc ≥ cfg.banThreshold), 50,
            (if bc ≥ cfg.suspiciousThreshold then 20 else 0),
            "Bot detection threshold exceeded"⟩ ])

/-- one sub-check contribution to the risk score: its weight when it
failed, its non-fatal contribution otherwise. -/
def outcomeRisk (o : SubCheckOutcome) : ℕ :=
  if o.failed then o.weight else o.extra

/-- spec wording: passed is true only if no sub-check failed. -/
def specPassed (l : List SubCheckOutcome) : Bool :=
  l.all (fun o => !o.failed)

/-- spec wording: riskScore is min of 100 and the accumulated
contributions of the sub-checks that ran. -/
def specRiskScore (l : List SubCheckOutcome) : ℕ :=
  min 100 (l.map outcomeRisk).sum

/-- the message of the first failed sub-check in order. -/
def firstFailMsg : List SubCheckOutcome → Option String
  | [] => none
  | o :: l => if o.failed then some o.blockMsg else firstFailMsg l

/-- spec wording: blockReason is the first fatal failure in the fixed
order, and undefined when every check passed. -/
def specBlockReason (l : List SubCheckOutcome) : Option String :=
  if specPassed l then none else firstFailMsg l

/-- the first candidate blockReason message among a run of blocks. -/
def firstBlockMsg : List SecurityBlock → Option String
  | [] => none
  | b :: l => orFirst b.msg (firstBlockMsg l)

/-- store-query outcomes with every query healthy, an empty nonce
table, an unseen match id, zero rate-limit usage and no usage rows
today. -/
def botSuspDb : SecDb := ⟨false, [], some 0, some false, some [], some []⟩

/-- parameters carrying a well-formed wallet and a bot confidence of
0.8, which clears the 0.9 ban threshold but is above the 0.7
suspicious threshold. -/
def botSuspParams : SecParams :=
  ⟨"0xaaaaaaaaaaaaaaaaaaaaaaaaaaaaaaaaaaaaaaaa", "match-0001-0001-0001-0001-0001-0001",
    "nonce-0001-0001-0001-0001-0001-0001", "match-submit", none, some (4/5)⟩

/-- a plain first-place submission for a two-player match, with
in-range duration, human-looking variance, consistent frame data and
no client flags. -/
def streakInput : MatchInput :=
  ⟨"0xaaaaaaaaaaaaaaaaaaaaaaaaaaaaaaaaaaaaaaaa", "match-0002", 1, 2, 30000, 0,
    ⟨100, 1800, 60, []⟩⟩

/-- a submission whose soft flags accumulate to exactly 75: unusually
short duration for 2 players (15), low variance (35), low variance as
winner (15), one client flag (10). -/
def flagged75Input : MatchInput :=
  ⟨"0xaaaaaaaaaaaaaaaaaaaaaaaaaaaaaaaaaaaaaaaa", "match-0003", 1, 2, 15000, 0,
    ⟨25, 900, 60, ["macro-pattern"]⟩⟩

/-- a submission whose soft flags accumulate to exactly 60: low
variance (35), low variance as winner (15), one client flag (10). -/
def plain60Input : MatchInput :=
  ⟨"0xaaaaaaaaaaaaaaaaaaaaaaaaaaaaaaaaaaaaaaaa", "match-0004", 1, 2, 30000, 0,
    ⟨25, 1800, 60, ["macro-pattern"]⟩⟩

-- ═════════════════════════════════════════════
-- SEQUENCES OF NONCE CHECKS (for the at-most-once property)
-- ═════════════════════════════════════════════

/-- run a sequence of nonce checks against a healthy store, threading
the consumed-nonce table, and count how many of the checks submitting
value v were accepted. -/
def successesFor (v : String) : List (String × String) → List String → ℕ
  | [], _ => 0
  | (nonce, wallet) :: rest, store =>
    let r := checkAndConsumeNonce false store nonce wallet
    (if nonce = v ∧ r.1.valid then 1 else 0) + successesFor v rest r.2

-- ═════════════════════════════════════════════
-- HELPER LEMMAS
-- ═════════════════════════════════════════════

theorem orFirst_assoc (a b c : Option String) :
    orFirst (orFirst a b) c = orFirst a (orFirst b c) := by
  cases a <;> simp [orFirst]

theorem orFirst_if (b : Bool) (m : String) (r : Option String) :
    orFirst (if b then some m else none) r = if b then some m else r := by
  cases b <;> simp [orFirst]

theorem orFirst_ite (c : Prop) [Decidable c] (m : String) (r : Option String) :
    orFirst (if c then some m else none) r = if c then some m else r := by
  split_ifs <;> simp [orFirst]

theorem orFirst_none (a : Option String) : orFirst a none = a := by
  cases a <;> simp [orFirst]

theorem orFirst_none_left (a : Option String) : orFirst none a = a := rfl

theorem runChecks_checks (l : List SecurityBlock) (st : CheckSt) :
    (runChecks st l).checks =
      st.checks ++ l.map (fun b => SecurityCheck.mk b.name b.ok b.details) := by
  induction l generalizing st with
  | nil => simp [runChecks]
  | cons b rest ih => simp [runChecks, pushCheck, ih]

theorem runChecks_risk (l : List SecurityBlock) (st : CheckSt) :
    (runChecks st l).riskScore = st.riskScore + (l.map (fun b => b.bump)).sum := by
  induction l generalizing st with
  | nil => simp [runChecks]
  | cons b rest ih => simp [runChecks, pushCheck, ih]; ring

theorem runChecks_block (l : List SecurityBlock) (st : CheckSt) :
    (runChecks st l).blockReason = orFirst st.blockReason (firstBlockMsg l) := by
  induction l generalizing st with
  | nil => cases h : st.blockReason <;> simp [runChecks, firstBlockMsg, orFirst, h]
  | cons b rest ih => simp [runChecks, pushCheck, ih, firstBlockMsg, orFirst_assoc]

theorem takeWhile_length_le {α : Type} (p : α → Bool) (l : List α) :
    (l.takeWhile p).length ≤ l.length := by
  induction l with
  | nil => simp
  | cons a t ih =>
    simp only [List.takeWhile]
    cases p a
    · simp
    · simpa using Nat.succ_le_succ ih

theorem BASE_REWARD_nonneg (q : ℚ) : 0 ≤ BASE_REWARD q := by
  unfold BASE_REWARD; split_ifs <;> norm_num

theorem PLACEMENT_MULTIPLIERS_nonneg (q : ℚ) : 0 ≤ PLACEMENT_MULTIPLIERS q := by
  unfold PLACEMENT_MULTIPLIERS; split_ifs <;> norm_num

theorem nonce_success_inv (store : List String) (n w : String)
    (h : (checkAndConsumeNonce false store n w).1.valid = true) :
    n ∉ store ∧ (checkAndConsumeNonce false store n w).2 = store ++ [n] := by
  by_cases hm : n ∈ store
  · simp [checkAndConsumeNonce, hm] at h
  · exact ⟨hm, by simp [checkAndConsumeNonce, hm]⟩

theorem successesFor_of_mem (v : String) (reqs : List (String × String)) :
    ∀ store : List String, v ∈ store → successesFor v reqs store = 0 := by
  induction reqs with
  | nil => intro store _; rfl
  | cons r rest ih =>
    intro store h
    obtain ⟨n, w⟩ := r
    simp only [successesFor]
    by_cases hm : n ∈ store
    · have hv : (checkAndConsumeNonce false store n w).1.valid = false := by
        simp [checkAndConsumeNonce, hm]
      have hs : (checkAndConsumeNonce false store n w).2 = store := by
        simp [checkAndConsumeNonce, hm]
      simp [hv, hs, ih store h]
    · have hs : (checkAndConsumeNonce false store n w).2 = store ++ [n] := by
        simp [checkAndConsumeNonce, hm]
      have hne : n ≠ v := by intro he; subst he; exact hm h
      have hmem2 : v ∈ (checkAndConsumeNonce false store n w).2 := by
        rw [hs]; exact List.mem_append_left _ h
      rw [if_neg (fun hc => hne hc.1)]
      simp [ih _ hmem2]

theorem successesFor_le_one (v : String) (reqs : List (String × String)) :
    ∀ store : List String, successesFor v reqs store ≤ 1 := by
  induction reqs with
  | nil => intro store; simp [successesFor]
  | cons r rest ih =>
    intro store
    obtain ⟨n, w⟩ := r
    simp only [successesFor]
    by_cases hc : n = v ∧ (checkAndConsumeNonce false store n w).1.valid = true
    · obtain ⟨hnv, hvalid⟩ := hc
      obtain ⟨hnotmem, hs⟩ := nonce_success_inv store n w hvalid
      have hmem : v ∈ (checkAndConsumeNonce false store n w).2 := by
        rw [hs, ← hnv]; exact List.mem_append_right _ (by simp)
      rw [if_pos ⟨hnv, hvalid⟩, successesFor_of_mem v rest _ hmem]
    · rw [if_neg hc]
      simpa using ih (checkAndConsumeNonce false store n w).2

-- ═════════════════════════════════════════════
-- CLAIM THEOREMS
-- ═════════════════════════════════════════════

/-- C6: for placement 1, playerCount 5, kills 3, durationMs 180000,
antiCheatPassed true, botConfidence 0.1, calculateReward returns base
25, multiplier 2.0 (placement contribution 25), killBonus 15,
survivalBonus 6, modifier 1.0, totalReward 71 and breakdown
base 25, placement 25, kills 15, survival 6, penalties 0, final 71. -/
theorem c6_scenario_a :
    calculateReward ⟨1, 5, 3, 180000, true, 1/10⟩ =
      ⟨25, 2, 15, 6, 1, 71, ⟨25, 25, 15, 6, 0, 71⟩⟩ := by
  simp only [calculateReward, BASE_REWARD, PLACEMENT_MULTIPLIERS, KILL_BONUS,
    SURVIVAL_BONUS_PER_MINUTE, MAX_SURVIVAL_BONUS, MIN_REWARD, MAX_REWARD_PER_MATCH,
    SUSPICIOUS_PENALTY, FAILED_ANTICHEAT_PENALTY, RewardCalculation.mk.injEq,
    RewardBreakdown.mk.injEq]
  norm_num

/-- C1: calculateReward always returns a totalReward in the interval
from 0 to MAX_REWARD_PER_MATCH = 1000, and an accepted match-submit
recording never raises the reward-type daily usage sum of any wallet
above DAILY_REWARD_CAP = 5000 (the handler records only a match-type
row, so the reward-type sum is unchanged). -/
theorem c1_bounded_reward_and_daily_cap :
    (∀ m : MatchData,
      0 ≤ (calculateReward m).totalReward ∧ (calculateReward m).totalReward ≤ 1000) ∧
    (∀ (st : Store) (w mid : String) (pl rw : ℚ) (day : ℕ) (w2 : String) (d2 : ℕ),
      rewardSumOn st w2 d2 ≤ 5000 →
      rewardSumOn (recordAcceptedSubmission st w mid pl rw day) w2 d2 ≤ 5000) := by
  constructor
  · intro m
    simp only [calculateReward, MIN_REWARD, MAX_REWARD_PER_MATCH]
    constructor
    · exact le_min (le_max_right _ _) (by norm_num)
    · exact min_le_right _ _
  · intro st w mid pl rw day w2 d2 h
    simpa [recordAcceptedSubmission, recordDailyUsage, recordProcessedMatch,
      rewardSumOn, isRewardRow, List.filter_append] using h

/-- witness for C1: an accepted submission appended to the empty store
leaves the reward-type sum under the cap. -/
theorem c1_bounded_reward_and_daily_cap_witness :
    rewardSumOn (recordAcceptedSubmission ⟨[], []⟩ "w" "m" 1 71 0) "w" 0 ≤ 5000 :=
  c1_bounded_reward_and_daily_cap.2 ⟨[], []⟩ "w" "m" 1 71 0 "w" 0
    (by simp [rewardSumOn])

/-- C10: the breakdown final always equals totalReward, and whenever
the pre-clamp value of a match with nonnegative kills and duration is
at most 1000 the breakdown components sum exactly to it. -/
theorem c10_breakdown_consistency (m : MatchData)
    (hk : 0 ≤ m.kills) (hd : 0 ≤ m.durationMs) :
    (calculateReward m).breakdown.final = (calculateReward m).totalReward ∧
    (((calculateReward m).baseReward * (calculateReward m).placementMultiplier +
        (calculateReward m).killBonus + (calculateReward m).survivalBonus) *
        (calculateReward m).antiCheatModifier ≤ 1000 →
      (calculateReward m).breakdown.base + (calculateReward m).breakdown.placement +
        (calculateReward m).breakdown.kills + (calculateReward m).breakdown.survival +
        (calculateReward m).breakdown.penalties = (calculateReward m).breakdown.final) := by
  constructor
  · rfl
  · intro hle
    simp only [calculateReward, MIN_REWARD, MAX_REWARD_PER_MATCH] at hle ⊢
    have hmod : 0 ≤ (if !m.antiCheatPassed then FAILED_ANTICHEAT_PENALTY
        else if m.botConfidence ≥ 7/10 then SUSPICIOUS_PENALTY else 1) := by
      split_ifs <;> norm_num [FAILED_ANTICHEAT_PENALTY, SUSPICIOUS_PENALTY]
    have hwb : 0 ≤ BASE_REWARD m.playerCount * PLACEMENT_MULTIPLIERS m.placement +
        m.kills * KILL_BONUS +
        min (m.durationMs / 60000 * SURVIVAL_BONUS_PER_MINUTE) MAX_SURVIVAL_BONUS := by
      have h1 := mul_nonneg (BASE_REWARD_nonneg m.playerCount)
        (PLACEMENT_MULTIPLIERS_nonneg m.placement)
      have h2 : 0 ≤ m.kills * KILL_BONUS :=
        mul_nonneg hk (by norm_num [KILL_BONUS])
      have h3 : 0 ≤ min (m.durationMs / 60000 * SURVIVAL_BONUS_PER_MINUTE)
          MAX_SURVIVAL_BONUS := by
        refine le_min ?_ (by norm_num [MAX_SURVIVAL_BONUS])
        exact mul_nonneg (div_nonneg hd (by norm_num))
          (by norm_num [SURVIVAL_BONUS_PER_MINUTE])
      linarith
    have h0 := mul_nonneg hwb hmod
    rw [max_eq_left h0, min_eq_left hle]
    ring

/-- witness for C10: the breakdown components of scenario A sum to its
final reward. -/
theorem c10_breakdown_consistency_witness :
    (calculateReward ⟨1, 5, 3, 180000, true, 1/10⟩).breakdown.base +
      (calculateReward ⟨1, 5, 3, 180000, true, 1/10⟩).breakdown.placement +
      (calculateReward ⟨1, 5, 3, 180000, true, 1/10⟩).breakdown.kills +
      (calculateReward ⟨1, 5, 3, 180000, true, 1/10⟩).breakdown.survival +
      (calculateReward ⟨1, 5, 3, 180000, true, 1/10⟩).breakdown.penalties =
      (calculateReward ⟨1, 5, 3, 180000, true, 1/10⟩).breakdown.final :=
  (c10_breakdown_consistency ⟨1, 5, 3, 180000, true, 1/10⟩
      (by norm_num) (by norm_num)).2
    (by simp only [calculateReward, BASE_REWARD, PLACEMENT_MULTIPLIERS, KILL_BONUS,
          SURVIVAL_BONUS_PER_MINUTE, MAX_SURVIVAL_BONUS, SUSPICIOUS_PENALTY,
          FAILED_ANTICHEAT_PENALTY]
        norm_num)

/-- C8: on the allowed path the handler derives antiCheatPassed from
riskScore below 50 and botConfidence as riskScore over 100, so a
riskScore of at least 50 zeroes the reward, and the 0.5 suspicious
modifier can never fire for a derived MatchData. -/
theorem c8_derived_anticheat_zeroes_reward (pl pc k d : ℚ) (risk : ℕ) :
    (50 ≤ risk →
      (calculateReward (deriveMatchData pl pc k d risk)).totalReward = 0) ∧
    (calculateReward (deriveMatchData pl pc k d risk)).antiCheatModifier ≠ 1/2 := by
  constructor
  · intro h
    have hfalse : decide (risk < 50) = false := by simp; omega
    simp only [calculateReward, deriveMatchData, hfalse, Bool.not_false, if_true,
      FAILED_ANTICHEAT_PENALTY, MIN_REWARD, MAX_REWARD_PER_MATCH]
    norm_num
  · by_cases hr : risk < 50
    · have htrue : decide (risk < 50) = true := by simpa using hr
      have hconf : ¬ ((risk : ℚ) / 100 ≥ 7/10) := by
        have : (risk : ℚ) ≤ 49 := by exact_mod_cast Nat.le_of_lt_succ hr
        intro hge
        have : (7 : ℚ)/10 ≤ 49/100 := le_trans hge (by linarith)
        norm_num at this
      simp only [calculateReward, deriveMatchData, htrue, Bool.not_true, if_false,
        Bool.false_eq_true, hconf]
      norm_num
    · have hfalse : decide (risk < 50) = false := by simp; omega
      simp only [calculateReward, deriveMatchData, hfalse, Bool.not_false, if_true,
        FAILED_ANTICHEAT_PENALTY]
      norm_num

/-- witness for C8: a derived MatchData at riskScore 60 yields reward
0. -/
theorem c8_derived_anticheat_zeroes_reward_witness :
    (calculateReward (deriveMatchData 1 5 3 180000 60)).totalReward = 0 :=
  (c8_derived_anticheat_zeroes_reward 1 5 3 180000 60).1 (by norm_num)

/-- C4: the rate-limit sub-check fails open on a store error while the
match-uniqueness sub-check fails closed, and match uniqueness reports
unique only when the store lookup succeeded and found nothing. -/
theorem c4_fail_open_fail_closed :
    (∀ maxReq : ℕ,
      (checkRateLimit none maxReq).allowed = true ∧
      (checkRateLimit none maxReq).details = "Rate limit check failed, allowing request") ∧
    ((checkMatchUniqueness none).unique = false ∧
      (checkMatchUniqueness none).reason = "Database error during match check") ∧
    (∀ lookup : Option Bool,
      (checkMatchUniqueness lookup).unique = true → lookup = some false) := by
  refine ⟨fun maxReq => ⟨rfl, rfl⟩, ⟨rfl, rfl⟩, fun lookup h => ?_⟩
  match lookup with
  | none => simp [checkMatchUniqueness] at h
  | some true => simp [checkMatchUniqueness] at h
  | some false => rfl

/-- C3: once a nonce value is in the consumed store, a further check
submitting it is rejected with the replay reason and inserts nothing,
a full security check built on that store cannot pass, and over any
sequence of checks at most one submission of a given value ever
succeeds. -/
theorem c3_nonce_at_most_once :
    (∀ (store : List String) (n w : String), n ∈ store →
      (∀ dbErr : Bool,
        (checkAndConsumeNonce dbErr store n w).1.valid = false ∧
        (checkAndConsumeNonce dbErr store n w).2 = store) ∧
      (checkAndConsumeNonce false store n w).1.reason =
        "Nonce already used (replay attack detected)" ∧
      (∀ (db : SecDb) (p : SecParams) (cfg : SecurityConfig),
        db.nonceDbErr = false → db.nonceStore = store → p.nonce = n →
        (performFullSecurityCheck db p cfg).passed = false)) ∧
    (∀ (v : String) (reqs : List (String × String)) (store : List String),
      successesFor v reqs store ≤ 1) := by
  constructor
  · intro store n w hmem
    refine ⟨fun dbErr => ?_, by simp [checkAndConsumeNonce, hmem], ?_⟩
    · cases dbErr <;> simp [checkAndConsumeNonce, hmem]
    · intro db p cfg hdb hns hpn
      have hn : (checkAndConsumeNonce db.nonceDbErr db.nonceStore p.nonce
          p.walletAddress).1.valid = false := by
        rw [hdb, hns, hpn]; simp [checkAndConsumeNonce, hmem]
      simp [performFullSecurityCheck, runChecks_checks, securityBlocks,
        List.all_append, hn]
  · exact fun v reqs store => successesFor_le_one v reqs store

/-- witness for C3: a replayed value in a singleton store is rejected,
and a double submission of one value yields at most one success. -/
theorem c3_nonce_at_most_once_witness :
    (checkAndConsumeNonce false ["aa"] "aa" "w").1.valid = false ∧
      successesFor "aa" [("aa", "w1"), ("aa", "w2")] [] ≤ 1 :=
  ⟨((c3_nonce_at_most_once.1 ["aa"] "aa" "w" (by simp)).1 false).1,
    c3_nonce_at_most_once.2 "aa" [("aa", "w1"), ("aa", "w2")] []⟩

/-- C9: the match-submit handler invokes the security gate without a
rewardAmount or botConfidence, so the returned checks are exactly the
five named sub-checks, in order, for every store state. -/
theorem c9_match_submit_check_names (db : SecDb) (w mid n : String) :
    (matchSubmitSecurityCheck db w mid n).checks.map (fun c => c.name) =
      ["WALLET_VALIDATION", "REPLAY_PREVENTION", "RATE_LIMIT",
        "MATCH_UNIQUENESS", "DAILY_MATCH_CAP"] := by
  simp [matchSubmitSecurityCheck, performFullSecurityCheck, securityBlocks,
    runChecks_checks]

/-- C2: evaluation of the final decision at the claimed boundaries.
The claim (and the threshold comments in the source) say a score of at
least 75 is rejected as BOT_DETECTED and a score in the 50 to 75 band
is allowed with a flagged-for-review message, but the code compares
the score against the REJECT constant whose value is 100 and uses the
FLAG constant 75 for the message, so a clamped score of exactly 75 is
allowed (merely flagged) and a score of 60 is allowed with the plain
success message. -/
theorem c2_threshold_eval :
    ((validateMatch (some []) (some []) 0 flagged75Input).allowed = true ∧
      (validateMatch (some []) (some []) 0 flagged75Input).riskScore = 75 ∧
      (validateMatch (some []) (some []) 0 flagged75Input).reasonCode = ReasonCode.VALID ∧
      (validateMatch (some []) (some []) 0 flagged75Input).reasonMessage =
        "Match allowed but flagged for review") ∧
    ((validateMatch (some []) (some []) 0 plain60Input).allowed = true ∧
      (validateMatch (some []) (some []) 0 plain60Input).riskScore = 60 ∧
      (validateMatch (some []) (some []) 0 plain60Input).reasonMessage =
        "Match validated successfully") := by
  refine ⟨⟨?_, ?_, ?_, ?_⟩, ⟨?_, ?_, ?_⟩⟩ <;>
    norm_num [validateMatch, validateDuration, validateInputVariance, validateKillCount,
      validateFrameData, analyzeWinPatterns, detectRapidMatches, DURATION_CONFIG,
      ZERO_THRESHOLD, LOW_THRESHOLD, NORMAL_MAX, MIN_TIME_PER_KILL, EXPECTED_TICK_RATE,
      TICK_RATE_TOLERANCE, MIN_MATCHES_FOR_RATE, MAX_RAPID_MATCHES,
      RAPID_MATCH_WINDOW_MS, MAX_CONSECUTIVE_WINS, MAX_WIN_RATE_24H, RISK_REJECT,
      RISK_FLAG, flagged75Input, plain60Input]

/-- C5 (amended): for every input, passed is the conjunction of the
sub-checks that ran, blockReason is the message of the first failure
in the fixed order (undefined when everything passed), and riskScore
is min of 100 and the contributions of the sub-checks that ran, where
a failed check contributes its weight and the bot-confidence check
additionally contributes 20 when it passed with a confidence at or
above the suspicious threshold. -/
theorem c5_security_aggregation (db : SecDb) (p : SecParams) (cfg : SecurityConfig) :
    (performFullSecurityCheck db p cfg).passed = specPassed (securityOutcomes db p cfg) ∧
    (performFullSecurityCheck db p cfg).riskScore = specRiskScore (securityOutcomes db p cfg) ∧
    (performFullSecurityCheck db p cfg).blockReason = specBlockReason (securityOutcomes db p cfg) := by
  obtain ⟨w, mid, n, ep, ra, bc⟩ := p
  cases ra <;> cases bc <;>
    simp [performFullSecurityCheck, securityBlocks, securityOutcomes, specPassed,
      specRiskScore, specBlockReason, outcomeRisk, firstFailMsg, runChecks_checks,
      runChecks_risk, runChecks_block, firstBlockMsg, orFirst_ite, orFirst_none,
      orFirst_none_left, List.all_append, Bool.not_not]

/-- counterexample for C5 as stated: with a bot confidence of 0.8 and
every sub-check passing, the returned riskScore is 20, yet no
sub-check that ran failed, so min of 100 and the sum of the weights of
failed sub-checks is 0, not the returned score. -/
theorem c5_riskscore_counterexample :
    (performFullSecurityCheck botSuspDb botSuspParams DEFAULT_SECURITY_CONFIG).riskScore = 20 ∧
    ((securityOutcomes botSuspDb botSuspParams DEFAULT_SECURITY_CONFIG).filter
        (fun o => o.failed)).map (fun o => o.weight) = [] ∧
    (performFullSecurityCheck botSuspDb botSuspParams DEFAULT_SECURITY_CONFIG).riskScore ≠
      min 100 (((securityOutcomes botSuspDb botSuspParams DEFAULT_SECURITY_CONFIG).filter
        (fun o => o.failed)).map (fun o => o.weight)).sum := by
  have hw : validateWalletAddress "0xaaaaaaaaaaaaaaaaaaaaaaaaaaaaaaaaaaaaaaaa" =
      ⟨true, "Valid Ethereum address"⟩ := by decide
  refine ⟨?_, ?_, ?_⟩ <;>
    simp [performFullSecurityCheck, securityBlocks, securityOutcomes, runChecks,
      pushCheck, botSuspDb, botSuspParams, DEFAULT_SECURITY_CONFIG, hw,
      checkAndConsumeNonce, checkRateLimit, checkMatchUniqueness, checkDailyCap] <;>
    norm_num

/-- C7: a first-place submission passing the duration, variance and
kill checks whose history sample opens with at least 20 consecutive
first-place rows (21 wins counting the current one) is rejected with
SUSPICIOUS_WIN_STREAK at riskScore 100. -/
theorem c7_win_streak_reject (input : MatchInput) (ms : List HistoryRow)
    (rapid : Option (List ℚ)) (now : ℚ)
    (hd : (validateDuration input).reject = false)
    (hv : (validateInputVariance input).reject = false)
    (hk : (validateKillCount input).reject = false)
    (hp : input.placement = 1)
    (h20 : 20 ≤ (ms.takeWhile (fun m => decide (m.placement = 1))).length) :
    (validateMatch (some ms) rapid now input).allowed = false ∧
    (validateMatch (some ms) rapid now input).reasonCode = ReasonCode.SUSPICIOUS_WIN_STREAK ∧
    (validateMatch (some ms) rapid now input).riskScore = 100 := by
  have hlen5 : ¬ (ms.length < MIN_MATCHES_FOR_RATE) := by
    have hle := takeWhile_length_le (fun m => decide (m.placement = 1)) ms
    simp only [MIN_MATCHES_FOR_RATE]
    omega
  have hc1 : (ms.takeWhile (fun m => decide (m.placement = 1))).length + 1 ≥
      MAX_CONSECUTIVE_WINS := by
    simp only [MAX_CONSECUTIVE_WINS]; omega
  have hc2 : (ms.takeWhile (fun m => decide (m.placement = 1))).length + 1 ≥
      MAX_CONSECUTIVE_WINS * 2 := by
    simp only [MAX_CONSECUTIVE_WINS]; omega
  have hwp_reject : (analyzeWinPatterns (some ms) input).reject = true := by
    simp [analyzeWinPatterns, hlen5, hp, hc1, hc2]
  have hwp_rc : (analyzeWinPatterns (some ms) input).reasonCode =
      some ReasonCode.SUSPICIOUS_WIN_STREAK := by
    simp [analyzeWinPatterns, hlen5, hp, hc1, hc2]
  refine ⟨?_, ?_, ?_⟩ <;>
    simp [validateMatch, hd, hv, hk, hwp_reject, hwp_rc]

/-- witness for C7: a clean two-player win on top of twenty recorded
wins in a row is rejected for the streak. -/
theorem c7_win_streak_reject_witness :
    (validateMatch (some (List.replicate 20 ⟨1, 0⟩)) (some []) 0 streakInput).allowed = false ∧
    (validateMatch (some (List.replicate 20 ⟨1, 0⟩)) (some []) 0 streakInput).reasonCode =
      ReasonCode.SUSPICIOUS_WIN_STREAK ∧
    (validateMatch (some (List.replicate 20 ⟨1, 0⟩)) (some []) 0 streakInput).riskScore = 100 :=
  c7_win_streak_reject streakInput (List.replicate 20 ⟨1, 0⟩) (some []) 0
    (by decide) (by decide) (by decide) (by decide) (by decide)

/-- witness for C4: the successful-lookup case of the uniqueness
check. -/
theorem c4_fail_open_fail_closed_witness :
    (checkMatchUniqueness (some false)).unique = true ∧
      (some false : Option Bool) = some false :=
  ⟨rfl, c4_fail_open_fail_closed.2.2 (some false) rfl⟩

end Battlegrounds
